import Mathlib

/-!
Verification development for the poke-mcp-server repository (src/airtable.py,
src/server.py): a set of MCP tool operations over the Airtable HTTP API.

The embedding models Python dict/list values as `JVal`, Python runtime faults
as `PyErr`, and the single outbound HTTP call of each operation as an
`HttpOutcome` oracle passed explicitly.  Each tool returns the Python value it
would return (or the fault that would escape it) together with the number of
HTTP requests it performed.
-/

namespace Poke

/-- JSON-like Python values: the transit data of the system (dicts are
association lists in insertion order, as Python dicts preserve insertion). -/
inductive JVal where
  | null
  | bool (b : Bool)
  | num (n : Int)
  | str (s : String)
  | arr (elems : List JVal)
  | obj (fields : List (String × JVal))

/-- Python runtime faults that can escape an operation. -/
inductive PyErr where
  | typeError
  | attributeError
  | keyError (k : String)
deriving DecidableEq

/-- Whether the first character list starts the second one. -/
def charsStart : List Char → List Char → Bool
  | [], _ => true
  | _ :: _, [] => false
  | a :: as, b :: bs => a == b && charsStart as bs

/-- Whether the first character list occurs contiguously inside the second
(Python substring containment). -/
def charsWithin (needle : List Char) : List Char → Bool
  | [] => charsStart needle []
  | c :: rest => charsStart needle (c :: rest) || charsWithin needle rest

/-- Python `x == s` where `s` is a string: true only for an equal string
value, false (never a fault) for every other value. -/
def JVal.isStrEq (j : JVal) (s : String) : Bool :=
  match j with
  | .str t => t == s
  | _ => false

/-- First binding of a key in a dict (Python dicts have unique keys; our
objects are built with distinct keys, so first binding is the binding). -/
def jLookup : List (String × JVal) → String → Option JVal
  | [], _ => none
  | (k1, v) :: rest, k => if k1 == k then some v else jLookup rest k

/-- Python `k in j` for a string `k`: key test on dicts, element equality on
lists, substring test on strings, TypeError on non-containers. -/
def pyContains (j : JVal) (k : String) : Except PyErr Bool :=
  match j with
  | .obj kvs => .ok (jLookup kvs k).isSome
  | .arr xs => .ok (xs.any fun x => x.isStrEq k)
  | .str s => .ok (charsWithin k.data s.data)
  | _ => .error .typeError

/-- Python `j[k]` for a string key: dict lookup (KeyError when absent),
TypeError on every other value. -/
def pyIndex (j : JVal) (k : String) : Except PyErr JVal :=
  match j with
  | .obj kvs =>
    match jLookup kvs k with
    | some v => .ok v
    | none => .error (.keyError k)
  | _ => .error .typeError

/-- Python `j.get(k, d)`: only dicts have `.get`; anything else raises
AttributeError. -/
def pyGet (j : JVal) (k : String) (d : JVal) : Except PyErr JVal :=
  match j with
  | .obj kvs => .ok ((jLookup kvs k).getD d)
  | _ => .error .attributeError

/-- Python `len(j)`: sized values only. -/
def pyLen (j : JVal) : Except PyErr Nat :=
  match j with
  | .arr xs => .ok xs.length
  | .obj kvs => .ok kvs.length
  | .str s => .ok s.length
  | _ => .error .typeError

/-- Python iteration `for x in j`: lists yield elements, strings yield
one-character strings, dicts yield keys; other values raise TypeError. -/
def pyIter (j : JVal) : Except PyErr (List JVal) :=
  match j with
  | .arr xs => .ok xs
  | .str s => .ok (s.data.map fun c => JVal.str c.toString)
  | .obj kvs => .ok (kvs.map fun kv => JVal.str kv.1)
  | _ => .error .typeError

/-- Outcome of the single `requests` call an operation performs: either a
transport-level exception (`requests.exceptions.RequestException`) or a
response with its `ok` flag, status code, JSON-parsed body (`none` when the
body is not valid JSON) and raw text. -/
inductive HttpOutcome where
  | exn (msg : String)
  | resp (ok : Bool) (status : Nat) (jsonBody : Option JVal) (text : String)

/-- Process-wide configuration read from the environment: AIRTABLE_BASE_ID
and the per-table identifiers (a `none` models an unset variable). -/
structure Config where
  base_id : Option String
  messages_table : Option String
  location_logs_table : Option String
  places_table : Option String
  contacts_table : Option String

/-- Python truthiness of an optional string (`None` and `""` are falsy). -/
def optTruthyStr : Option String → Bool
  | none => false
  | some s => !(s == "")

/-- `airtable_request` (src/airtable.py lines 8-56): token check, base/table
configuration check, then one HTTP request whose outcome is normalized: a
transport exception or a JSON-decode failure of a success body becomes an
`error` dict, a non-ok status becomes an `error`+`detail` dict, and an ok
status returns the parsed body as-is.  The second component counts HTTP
requests performed. -/
def airtable_request (cfg : Config) (token : String) (table_id : String)
    (method : String) (endpoint : String) (params : List (String × String))
    (json_data : Option JVal) (outcome : HttpOutcome) : JVal × Nat :=
  if token == "" then
    (JVal.obj [("error", JVal.str "No authentication token provided.")], 0)
  else if !optTruthyStr cfg.base_id || (table_id == "") then
    (JVal.obj [("error", JVal.str "Server configuration is incomplete.")], 0)
  else
    match outcome with
    | .exn msg =>
      (JVal.obj [("error", JVal.str ("Request failed: " ++ msg))], 1)
    | .resp ok status jsonBody text =>
      if ok then
        match jsonBody with
        | some j => (j, 1)
        | none =>
          (JVal.obj [("error",
            JVal.str "Request failed: response body is not valid JSON")], 1)
      else
        (JVal.obj [("error",
            JVal.str ("Request failed with status " ++ toString status)),
          ("detail", jsonBody.getD (JVal.str text))], 1)

/-- `field.get("name", "").lower()` — Python `.lower()` exists on strings
only; any other value raises AttributeError. -/
def pyStrLower (j : JVal) : Except PyErr String :=
  match j with
  | .str s => .ok s.toLower
  | _ => .error .attributeError

/-- Inner loop of `fetch_field_options` (src/airtable.py lines 78-81): scan a
table's fields for a case-insensitive name match and collect the option
names of its select choices. -/
def scanFields (field_name : String) : List JVal → Except PyErr (Option (List JVal))
  | [] => .ok none
  | f :: rest => do
    let nameV ← pyGet f "name" (JVal.str "")
    let nameL ← pyStrLower nameV
    if nameL == field_name.toLower then
      let optsField ← pyGet f "options" (JVal.obj [])
      let choices ← pyGet optsField "choices" (JVal.arr [])
      let clist ← pyIter choices
      let names ← clist.mapM fun opt => pyGet opt "name" JVal.null
      pure (some names)
    else scanFields field_name rest

/-- Outer loop of `fetch_field_options` (src/airtable.py lines 76-82): find
the table with the given id; fall through to `[]` when no field matches. -/
def scanTables (table_id field_name : String) : List JVal → Except PyErr (List JVal)
  | [] => .ok []
  | t :: rest => do
    let tid ← pyGet t "id" JVal.null
    if tid.isStrEq table_id then
      let fields ← pyGet t "fields" (JVal.arr [])
      let flist ← pyIter fields
      match ← scanFields field_name flist with
      | some opts => pure opts
      | none => scanTables table_id field_name rest
    else scanTables table_id field_name rest

/-- `fetch_field_options` (src/airtable.py lines 59-84): schema-discovery
call; every failure of the request or of the response traversal is swallowed
by the enclosing `except Exception` and yields `[]`. -/
def fetch_field_options (cfg : Config) (token table_id field_name : String)
    (outcome : HttpOutcome) : List JVal × Nat :=
  if token == "" || !optTruthyStr cfg.base_id || (table_id == "") then
    ([], 0)
  else
    match outcome with
    | .exn _ => ([], 1)
    | .resp false _ _ _ => ([], 1)
    | .resp true _ none _ => ([], 1)
    | .resp true _ (some data) _ =>
      match (do
        let tables ← pyGet data "tables" (JVal.arr [])
        let tlist ← pyIter tables
        scanTables table_id field_name tlist) with
      | .error _ => ([], 1)
      | .ok opts => (opts, 1)

/-! ## Filter composition (read path) -/

/-- `FIND(LOWER('<v>'), LOWER({<field>}))` — the case-insensitive substring
clause used for name/nickname/city/company/address filters. -/
def findLowerClause (field v : String) : String :=
  "FIND(LOWER(\x27" ++ v ++ "\x27), LOWER(\x7b" ++ field ++ "\x7d))"

/-- `LOWER({type}) = LOWER('<t>')` — one case-insensitive equality clause of
the place-type filter. -/
def typeEqClause (t : String) : String :=
  "LOWER(\x7btype\x7d) = LOWER(\x27" ++ t ++ "\x27)"

/-- `FIND('<r>', ARRAYJOIN({relationship}, ','))` — one membership clause of
the relationship filter over the list-typed relationship field. -/
def relationshipClause (r : String) : String :=
  "FIND(\x27" ++ r ++ "\x27, ARRAYJOIN(\x7brelationship\x7d, \x27,\x27))"

/-- Composition rule shared by all read tools (src/airtable.py lines 160,
368, 483): no clause → no formula, one clause → unwrapped, two or more →
`AND(...)` over the clauses in build order. -/
def composeFilter : List String → Option String
  | [] => none
  | [f] => some f
  | fs => some ("AND(" ++ String.intercalate ", " fs ++ ")")

/-- The `filterByFormula` query entry: present exactly when a formula was
composed. -/
def filterParam (filters : List String) : List (String × String) :=
  match composeFilter filters with
  | none => []
  | some f => [("filterByFormula", f)]

/-- `get_places` name clause (line 354-355): appended only when the value is
truthy. -/
def placesNameClauses : Option String → List String
  | some n => if n == "" then [] else [findLowerClause "name" n]
  | none => []

/-- `get_places` type clause (lines 356-361): single value unwrapped,
several values wrapped in `OR(...)`. -/
def placesTypeClauses : Option (List String) → List String
  | some ts =>
    if ts.isEmpty then []
    else if ts.length == 1 then [typeEqClause (ts.headD "")]
    else ["OR(" ++ String.intercalate ", " (ts.map typeEqClause) ++ ")"]
  | none => []

/-- `get_places` rating clause (lines 362-363): note `if rating:` treats the
value 0 as absent. -/
def placesRatingClauses : Option Int → List String
  | some r => if r == 0 then [] else ["\x7brating\x7d >= " ++ toString r]
  | none => []

/-- `get_places` address clause (lines 364-365). -/
def placesAddressClauses : Option String → List String
  | some a => if a == "" then [] else [findLowerClause "address" a]
  | none => []

/-- Filter list of `get_places` (src/airtable.py lines 353-365), clauses in
the order the source appends them: name, type, rating, address. -/
def get_places_filters (name : Option String) (type_ : Option (List String))
    (rating : Option Int) (address : Option String) : List String :=
  placesNameClauses name ++ placesTypeClauses type_ ++
  placesRatingClauses rating ++ placesAddressClauses address

/-- Query parameters of `get_places` (lines 350-368). -/
def get_places_params (name : Option String) (type_ : Option (List String))
    (rating : Option Int) (address : Option String) : List (String × String) :=
  filterParam (get_places_filters name type_ rating address)

/-- `get_contacts` name clause (lines 465-466). -/
def contactsNameClauses : Option String → List String
  | some n => if n == "" then [] else [findLowerClause "name" n]
  | none => []

/-- `get_contacts` nickname clause (lines 467-468). -/
def contactsNicknameClauses : Option String → List String
  | some n => if n == "" then [] else [findLowerClause "nickname" n]
  | none => []

/-- `get_contacts` city clause (lines 469-470). -/
def contactsCityClauses : Option String → List String
  | some c => if c == "" then [] else [findLowerClause "city" c]
  | none => []

/-- `get_contacts` sex clause (lines 471-472). -/
def contactsSexClauses : Option String → List String
  | some s => if s == "" then [] else ["LOWER(\x7bsex\x7d) = \x27" ++ s.toLower ++ "\x27"]
  | none => []

/-- `get_contacts` company clause (lines 473-474). -/
def contactsCompanyClauses : Option String → List String
  | some c => if c == "" then [] else [findLowerClause "company" c]
  | none => []

/-- `get_contacts` relationship clause (lines 475-480): single value
unwrapped, several values wrapped in `OR(...)`. -/
def contactsRelationshipClauses : Option (List String) → List String
  | some rs =>
    if rs.isEmpty then []
    else if rs.length == 1 then [relationshipClause (rs.headD "")]
    else ["OR(" ++ String.intercalate ", " (rs.map relationshipClause) ++ ")"]
  | none => []

/-- Filter list of `get_contacts` (src/airtable.py lines 464-480).  The
source appends in the order: name, nickname, city, sex, company,
relationship — the company clause comes BEFORE the relationship clause,
although `relationship` is declared before `company` in the signature. -/
def get_contacts_filters (name nickname city sex : Option String)
    (relationship : Option (List String)) (company : Option String) : List String :=
  contactsNameClauses name ++ contactsNicknameClauses nickname ++
  contactsCityClauses city ++ contactsSexClauses sex ++
  contactsCompanyClauses company ++ contactsRelationshipClauses relationship

/-- Query parameters of `get_contacts` (lines 462-483). -/
def get_contacts_params (name nickname city sex : Option String)
    (relationship : Option (List String)) (company : Option String) :
    List (String × String) :=
  filterParam (get_contacts_filters name nickname city sex relationship company)

/-- `get_location_log` place clause (lines 154-155). -/
def logPlaceClauses : Option String → List String
  | some p => if p == "" then []
      else ["FIND(\x27" ++ p ++ "\x27, ARRAYJOIN(\x7bplace\x7d, \x27,\x27))"]
  | none => []

/-- `get_location_log` status clause (lines 156-157). -/
def logStatusClauses : Option String → List String
  | some s => if s == "" then [] else ["\x7bstatus\x7d = \x27" ++ s ++ "\x27"]
  | none => []

/-- Filter list of `get_location_log` (lines 153-157): place then status. -/
def get_location_log_filters (place_id status : Option String) : List String :=
  logPlaceClauses place_id ++ logStatusClauses status

/-- Query parameters of `get_location_log` (lines 145-160): fixed recency
sort, then a `maxRecords` cap only when `limit` is truthy (`if limit:` —
0 and `None` are both falsy), then the composed filter. -/
def get_location_log_params (limit : Option Int) (place_id status : Option String) :
    List (String × String) :=
  [("sort[0][field]", "timestamp"), ("sort[0][direction]", "desc")] ++
  (match limit with
   | some n => if n == 0 then [] else [("maxRecords", toString n)]
   | none => []) ++
  filterParam (get_location_log_filters place_id status)

/-- Query parameters of `get_messages` (lines 103-107). -/
def messages_params (range : String) : List (String × String) :=
  [("view", range), ("sort[0][field]", "timestamp"), ("sort[0][direction]", "desc")]

/-! ## Tool operations

Each tool takes the configuration, the request-scoped token
(`ctx.get_state("airtable_token")`, `none` when absent) and one
`HttpOutcome` per HTTP call it can perform, and returns the Python value it
would produce — or the `PyErr` that would escape it — plus the number of
HTTP requests performed. -/

/-- The auth failure dict shared by all tools. -/
def authHeaderErr : JVal :=
  JVal.obj [("error", JVal.str "No authentication token provided in request header.")]

/-- Response handling of `get_messages` (src/airtable.py lines 111-118). -/
def messagesShape (data : JVal) (range : String) : Except PyErr JVal :=
  match pyContains data "error" with
  | .error e => .error e
  | .ok true =>
    match pyIndex data "error" with
    | .error e => .error e
    | .ok ev => .ok (JVal.obj [("error", ev), ("range", JVal.str range)])
  | .ok false =>
    match pyGet data "records" (JVal.arr []) with
    | .error e => .error e
    | .ok recs =>
      match pyGet data "records" (JVal.arr []) with
      | .error e => .error e
      | .ok recs2 =>
        match pyLen recs2 with
        | .error e => .error e
        | .ok cnt =>
          .ok (JVal.obj [("range", JVal.str range), ("messages", recs),
            ("count", JVal.num (Int.ofNat cnt))])

/-- `get_messages` (src/airtable.py lines 87-118). -/
def get_messages (cfg : Config) (token : Option String) (range : String)
    (o : HttpOutcome) : Except PyErr JVal × Nat :=
  if optTruthyStr token then
    if optTruthyStr cfg.messages_table then
      let res := airtable_request cfg (token.getD "") (cfg.messages_table.getD "")
        "GET" "" (messages_params range) none o
      (messagesShape res.1 range, res.2)
    else (.ok (JVal.obj [("error", JVal.str "Messages table is not configured.")]), 0)
  else (.ok authHeaderErr, 0)

/-- Response handling of `get_location_log` (lines 164-172). -/
def locationLogShape (data : JVal) : Except PyErr JVal :=
  match pyContains data "error" with
  | .error e => .error e
  | .ok true =>
    match pyIndex data "error" with
    | .error e => .error e
    | .ok ev => .ok (JVal.obj [("error", ev)])
  | .ok false =>
    match pyGet data "records" (JVal.arr []) with
    | .error e => .error e
    | .ok recs =>
      match pyLen recs with
      | .error e => .error e
      | .ok cnt =>
        .ok (JVal.obj [("logs", recs), ("count", JVal.num (Int.ofNat cnt))])

/-- `get_location_log` (src/airtable.py lines 121-172). -/
def get_location_log (cfg : Config) (token : Option String) (limit : Option Int)
    (place_id status : Option String) (o : HttpOutcome) : Except PyErr JVal × Nat :=
  if optTruthyStr token then
    if optTruthyStr cfg.location_logs_table then
      let res := airtable_request cfg (token.getD "") (cfg.location_logs_table.getD "")
        "GET" "" (get_location_log_params limit place_id status) none o
      (locationLogShape res.1, res.2)
    else (.ok (JVal.obj [("error", JVal.str "Location log is not configured.")]), 0)
  else (.ok authHeaderErr, 0)

/-- Field update map of `update_location_log` (lines 196-200): a key is
included exactly when the parameter `is not None`. -/
def update_location_log_fields (place_id : Option String) (transit : Option Bool) :
    List (String × JVal) :=
  (match place_id with
   | some p => [("place", JVal.arr [JVal.str p])]
   | none => []) ++
  (match transit with
   | some b => [("transit", JVal.bool b)]
   | none => [])

/-- `update_location_log` (src/airtable.py lines 175-219). -/
def update_location_log (cfg : Config) (token : Option String) (log_id : String)
    (place_id : Option String) (transit : Option Bool) (o : HttpOutcome) :
    Except PyErr JVal × Nat :=
  if optTruthyStr token then
    if optTruthyStr cfg.location_logs_table then
      let fields := update_location_log_fields place_id transit
      if fields.isEmpty then
        (.ok (JVal.obj [("error",
          JVal.str "No fields provided to update. Provide at least place_id or transit.")]), 0)
      else
        let res := airtable_request cfg (token.getD "") (cfg.location_logs_table.getD "")
          "PATCH" ("/" ++ log_id) [] (some (JVal.obj [("fields", JVal.obj fields)])) o
        (match pyContains res.1 "error" with
         | .error e => .error e
         | .ok true =>
           match pyIndex res.1 "error" with
           | .error e => .error e
           | .ok ev => .ok (JVal.obj [("error", ev)])
         | .ok false =>
           .ok (JVal.obj [("log", res.1),
             ("message", JVal.str "Location log updated successfully.")]), res.2)
    else (.ok (JVal.obj [("error", JVal.str "Location log is not configured.")]), 0)
  else (.ok authHeaderErr, 0)

/-- `get_places` (src/airtable.py lines 322-382): compose the filter,
dispatch, and on success fetch the available type options before shaping the
result. -/
def get_places (cfg : Config) (token : Option String) (name : Option String)
    (type_ : Option (List String)) (rating : Option Int) (address : Option String)
    (o fo : HttpOutcome) : Except PyErr JVal × Nat :=
  if optTruthyStr token then
    if optTruthyStr cfg.places_table then
      let res := airtable_request cfg (token.getD "") (cfg.places_table.getD "")
        "GET" "" (get_places_params name type_ rating address) none o
      match pyContains res.1 "error" with
      | .error e => (.error e, res.2)
      | .ok true =>
        (match pyIndex res.1 "error" with
         | .error e => .error e
         | .ok ev => .ok (JVal.obj [("error", ev)]), res.2)
      | .ok false =>
        match pyGet res.1 "records" (JVal.arr []) with
        | .error e => (.error e, res.2)
        | .ok recs =>
          let fr := fetch_field_options cfg (token.getD "") (cfg.places_table.getD "") "type" fo
          (match pyLen recs with
           | .error e => .error e
           | .ok cnt =>
             .ok (JVal.obj [("places", recs), ("count", JVal.num (Int.ofNat cnt)),
               ("available_types", JVal.arr fr.1)]), res.2 + fr.2)
    else (.ok (JVal.obj [("error", JVal.str "Places table is not configured.")]), 0)
  else (.ok authHeaderErr, 0)

/-- Field update map of `update_place` (lines 287-297): only parameters that
are `not None` are included; type values are lower-cased. -/
def update_place_fields (name address : Option String) (type_ : Option (List String))
    (rating : Option Int) (notes : Option String) : List (String × JVal) :=
  (match name with | some n => [("name", JVal.str n)] | none => []) ++
  (match address with | some a => [("address", JVal.str a)] | none => []) ++
  (match type_ with
   | some ts => [("type", JVal.arr (ts.map fun t => JVal.str t.toLower))]
   | none => []) ++
  (match rating with | some r => [("rating", JVal.num r)] | none => []) ++
  (match notes with | some n => [("notes", JVal.str n)] | none => [])

/-- `update_place` (src/airtable.py lines 269-319). -/
def update_place (cfg : Config) (token : Option String) (place_id : String)
    (name address : Option String) (type_ : Option (List String))
    (rating : Option Int) (notes : Option String) (o fo : HttpOutcome) :
    Except PyErr JVal × Nat :=
  if optTruthyStr token then
    if optTruthyStr cfg.places_table then
      let fields := update_place_fields name address type_ rating notes
      if fields.isEmpty then
        (.ok (JVal.obj [("error", JVal.str "No fields provided to update.")]), 0)
      else
        let res := airtable_request cfg (token.getD "") (cfg.places_table.getD "")
          "PATCH" ("/" ++ place_id) []
          (some (JVal.obj [("fields", JVal.obj fields), ("typecast", JVal.bool true)])) o
        match pyContains res.1 "error" with
        | .error e => (.error e, res.2)
        | .ok true =>
          (match pyIndex res.1 "error" with
           | .error e => .error e
           | .ok ev => .ok (JVal.obj [("error", ev)]), res.2)
        | .ok false =>
          let fr := fetch_field_options cfg (token.getD "") (cfg.places_table.getD "") "type" fo
          (.ok (JVal.obj [("place", res.1),
            ("message", JVal.str "Place updated successfully."),
            ("available_types", JVal.arr fr.1)]), res.2 + fr.2)
    else (.ok (JVal.obj [("error", JVal.str "Places table is not configured.")]), 0)
  else (.ok authHeaderErr, 0)

/-- `get_contacts` (src/airtable.py lines 426-499): compose the filter,
dispatch, and on success fetch the relationship and city options before
shaping the result. -/
def get_contacts (cfg : Config) (token : Option String)
    (name nickname city sex : Option String) (relationship : Option (List String))
    (company : Option String) (o fo1 fo2 : HttpOutcome) : Except PyErr JVal × Nat :=
  if optTruthyStr token then
    if optTruthyStr cfg.contacts_table then
      let res := airtable_request cfg (token.getD "") (cfg.contacts_table.getD "")
        "GET" "" (get_contacts_params name nickname city sex relationship company) none o
      match pyContains res.1 "error" with
      | .error e => (.error e, res.2)
      | .ok true =>
        (match pyIndex res.1 "error" with
         | .error e => .error e
         | .ok ev => .ok (JVal.obj [("error", ev)]), res.2)
      | .ok false =>
        match pyGet res.1 "records" (JVal.arr []) with
        | .error e => (.error e, res.2)
        | .ok recs =>
          let f1 := fetch_field_options cfg (token.getD "") (cfg.contacts_table.getD "")
            "relationship" fo1
          let f2 := fetch_field_options cfg (token.getD "") (cfg.contacts_table.getD "")
            "city" fo2
          (match pyLen recs with
           | .error e => .error e
           | .ok cnt =>
             .ok (JVal.obj [("contacts", recs), ("count", JVal.num (Int.ofNat cnt)),
               ("available_relationships", JVal.arr f1.1),
               ("available_cities", JVal.arr f2.1)]), res.2 + f1.2 + f2.2)
    else (.ok (JVal.obj [("error", JVal.str "Contacts table is not configured.")]), 0)
  else (.ok authHeaderErr, 0)

/-- Field update map of `update_contact` (lines 593-615), keys in source
order; city and sex are lower-cased, relationship values are lower-cased. -/
def update_contact_fields (name nickname birthday city sex : Option String)
    (relationship : Option (List String))
    (phone email company notes met_date : Option String) : List (String × JVal) :=
  (match name with | some v => [("name", JVal.str v)] | none => []) ++
  (match nickname with | some v => [("nickname", JVal.str v)] | none => []) ++
  (match birthday with | some v => [("birthday", JVal.str v)] | none => []) ++
  (match city with | some v => [("city", JVal.str v.toLower)] | none => []) ++
  (match sex with | some v => [("sex", JVal.str v.toLower)] | none => []) ++
  (match relationship with
   | some rs => [("relationship", JVal.arr (rs.map fun r => JVal.str r.toLower))]
   | none => []) ++
  (match phone with | some v => [("phone", JVal.str v)] | none => []) ++
  (match email with | some v => [("email", JVal.str v)] | none => []) ++
  (match company with | some v => [("company", JVal.str v)] | none => []) ++
  (match notes with | some v => [("notes", JVal.str v)] | none => []) ++
  (match met_date with | some v => [("met_date", JVal.str v)] | none => [])

/-- `update_contact` (src/airtable.py lines 569-639). -/
def update_contact (cfg : Config) (token : Option String) (contact_id : String)
    (name nickname birthday city sex : Option String)
    (relationship : Option (List String))
    (phone email company notes met_date : Option String)
    (o fo1 fo2 : HttpOutcome) : Except PyErr JVal × Nat :=
  if optTruthyStr token then
    if optTruthyStr cfg.contacts_table then
      let fields := update_contact_fields name nickname birthday city sex relationship
        phone email company notes met_date
      if fields.isEmpty then
        (.ok (JVal.obj [("error", JVal.str "No fields provided to update.")]), 0)
      else
        let res := airtable_request cfg (token.getD "") (cfg.contacts_table.getD "")
          "PATCH" ("/" ++ contact_id) []
          (some (JVal.obj [("fields", JVal.obj fields), ("typecast", JVal.bool true)])) o
        match pyContains res.1 "error" with
        | .error e => (.error e, res.2)
        | .ok true =>
          (match pyIndex res.1 "error" with
           | .error e => .error e
           | .ok ev => .ok (JVal.obj [("error", ev)]), res.2)
        | .ok false =>
          let f1 := fetch_field_options cfg (token.getD "") (cfg.contacts_table.getD "")
            "relationship" fo1
          let f2 := fetch_field_options cfg (token.getD "") (cfg.contacts_table.getD "")
            "city" fo2
          (.ok (JVal.obj [("contact", res.1),
            ("message", JVal.str "Contact updated successfully."),
            ("available_relationships", JVal.arr f1.1),
            ("available_cities", JVal.arr f2.1)]), res.2 + f1.2 + f2.2)
    else (.ok (JVal.obj [("error", JVal.str "Contacts table is not configured.")]), 0)
  else (.ok authHeaderErr, 0)

/-- `record.get("fields", {}).get("birthday_alert", "")` (line 717). -/
def recordAlert (r : JVal) : Except PyErr JVal := do
  let fields ← pyGet r "fields" (JVal.obj [])
  pyGet fields "birthday_alert" (JVal.str "")

/-- The grouping loop of `get_birthdays` (src/airtable.py lines 712-723):
an if/elif chain appends each record to at most one of the three buckets
and silently skips every other alert value. -/
def groupBirthdaysAux : List JVal → List JVal → List JVal → List JVal →
    Except PyErr (List JVal × List JVal × List JVal)
  | [], t, w, m => .ok (t, w, m)
  | r :: rest, t, w, m =>
    match recordAlert r with
    | .error e => .error e
    | .ok alert =>
      if alert.isStrEq "today" then groupBirthdaysAux rest (t ++ [r]) w m
      else if alert.isStrEq "this_week" then groupBirthdaysAux rest t (w ++ [r]) m
      else if alert.isStrEq "this_month" then groupBirthdaysAux rest t w (m ++ [r])
      else groupBirthdaysAux rest t w m

/-- The grouping of `get_birthdays` starting from empty buckets. -/
def groupBirthdays (records : List JVal) :
    Except PyErr (List JVal × List JVal × List JVal) :=
  groupBirthdaysAux records [] [] []

/-- `get_birthdays` (src/airtable.py lines 687-729): fetch the `birthday`
view, group the records by their precomputed `birthday_alert` field. -/
def get_birthdays (cfg : Config) (token : Option String) (o : HttpOutcome) :
    Except PyErr JVal × Nat :=
  if optTruthyStr token then
    if optTruthyStr cfg.contacts_table then
      let res := airtable_request cfg (token.getD "") (cfg.contacts_table.getD "")
        "GET" "" [("view", "birthday")] none o
      (match pyContains res.1 "error" with
       | .error e => .error e
       | .ok true =>
         match pyIndex res.1 "error" with
         | .error e => .error e
         | .ok ev => .ok (JVal.obj [("error", ev)])
       | .ok false => do
         let recs ← pyGet res.1 "records" (JVal.arr [])
         let rlist ← pyIter recs
         let (t, w, m) ← groupBirthdays rlist
         pure (JVal.obj [("today", JVal.arr t), ("this_week", JVal.arr w),
           ("this_month", JVal.arr m)]), res.2)
    else (.ok (JVal.obj [("error", JVal.str "Contacts table is not configured.")]), 0)
  else (.ok authHeaderErr, 0)

/-- Field map of `create_place` (src/airtable.py lines 239-248): name,
address and lower-cased types are required, rating and notes optional. -/
def create_place_fields (name address : String) (type_ : List String)
    (rating : Option Int) (notes : Option String) : List (String × JVal) :=
  [("name", JVal.str name), ("address", JVal.str address),
   ("type", JVal.arr (type_.map fun t => JVal.str t.toLower))] ++
  (match rating with | some r => [("rating", JVal.num r)] | none => []) ++
  (match notes with | some v => [("notes", JVal.str v)] | none => [])

/-- `create_place` (src/airtable.py lines 222-266). -/
def create_place (cfg : Config) (token : Option String) (name address : String)
    (type_ : List String) (rating : Option Int) (notes : Option String)
    (o fo : HttpOutcome) : Except PyErr JVal × Nat :=
  if optTruthyStr token then
    if optTruthyStr cfg.places_table then
      let res := airtable_request cfg (token.getD "") (cfg.places_table.getD "")
        "POST" "" []
        (some (JVal.obj [("fields",
          JVal.obj (create_place_fields name address type_ rating notes)),
          ("typecast", JVal.bool true)])) o
      match pyContains res.1 "error" with
      | .error e => (.error e, res.2)
      | .ok true =>
        (match pyIndex res.1 "error" with
         | .error e => .error e
         | .ok ev => .ok (JVal.obj [("error", ev)]), res.2)
      | .ok false =>
        let fr := fetch_field_options cfg (token.getD "") (cfg.places_table.getD "") "type" fo
        (.ok (JVal.obj [("place", res.1),
          ("message", JVal.str ("Saved \x27" ++ name ++ "\x27 successfully.")),
          ("available_types", JVal.arr fr.1)]), res.2 + fr.2)
    else (.ok (JVal.obj [("error", JVal.str "Places table is not configured.")]), 0)
  else (.ok authHeaderErr, 0)

/-- Field map of `create_contact` (src/airtable.py lines 525-546): name is
required; the optional fields follow in source order, city and sex
lower-cased, relationship values lower-cased. -/
def create_contact_fields (name : String) (nickname birthday city sex : Option String)
    (relationship : Option (List String))
    (phone email company notes met_date : Option String) : List (String × JVal) :=
  [("name", JVal.str name)] ++
  (match nickname with | some v => [("nickname", JVal.str v)] | none => []) ++
  (match birthday with | some v => [("birthday", JVal.str v)] | none => []) ++
  (match city with | some v => [("city", JVal.str v.toLower)] | none => []) ++
  (match sex with | some v => [("sex", JVal.str v.toLower)] | none => []) ++
  (match relationship with
   | some rs => [("relationship", JVal.arr (rs.map fun r => JVal.str r.toLower))]
   | none => []) ++
  (match phone with | some v => [("phone", JVal.str v)] | none => []) ++
  (match email with | some v => [("email", JVal.str v)] | none => []) ++
  (match company with | some v => [("company", JVal.str v)] | none => []) ++
  (match notes with | some v => [("notes", JVal.str v)] | none => []) ++
  (match met_date with | some v => [("met_date", JVal.str v)] | none => [])

/-- `create_contact` (src/airtable.py lines 502-566). -/
def create_contact (cfg : Config) (token : Option String) (name : String)
    (nickname birthday city sex : Option String) (relationship : Option (List String))
    (phone email company notes met_date : Option String)
    (o fo1 fo2 : HttpOutcome) : Except PyErr JVal × Nat :=
  if optTruthyStr token then
    if optTruthyStr cfg.contacts_table then
      let res := airtable_request cfg (token.getD "") (cfg.contacts_table.getD "")
        "POST" "" []
        (some (JVal.obj [("fields",
          JVal.obj (create_contact_fields name nickname birthday city sex relationship
            phone email company notes met_date)),
          ("typecast", JVal.bool true)])) o
      match pyContains res.1 "error" with
      | .error e => (.error e, res.2)
      | .ok true =>
        (match pyIndex res.1 "error" with
         | .error e => .error e
         | .ok ev => .ok (JVal.obj [("error", ev)]), res.2)
      | .ok false =>
        let f1 := fetch_field_options cfg (token.getD "") (cfg.contacts_table.getD "")
          "relationship" fo1
        let f2 := fetch_field_options cfg (token.getD "") (cfg.contacts_table.getD "")
          "city" fo2
        (.ok (JVal.obj [("contact", res.1),
          ("message", JVal.str ("Contact \x27" ++ name ++ "\x27 saved successfully.")),
          ("available_relationships", JVal.arr f1.1),
          ("available_cities", JVal.arr f2.1)]), res.2 + f1.2 + f2.2)
    else (.ok (JVal.obj [("error", JVal.str "Contacts table is not configured.")]), 0)
  else (.ok authHeaderErr, 0)

/-- Python `str.capitalize()`: first character upper-cased, the rest
lower-cased. -/
def pyCapitalize (s : String) : String :=
  match s.data with
  | [] => ""
  | c :: rest => String.mk (c.toUpper :: rest.map Char.toLower)

/-- The `source_map` of `get_parameter_options` and `delete_entry`
(src/airtable.py lines 401-404 and 658-661): which configured table a
source name resolves to; `none` models a source absent from the map. -/
def sourceTable (cfg : Config) : String → Option (Option String)
  | "place" => some cfg.places_table
  | "contact" => some cfg.contacts_table
  | _ => none

/-- `get_parameter_options` (src/airtable.py lines 385-421): resolves the
source's table and returns the schema options; `fetch_field_options`
swallows every failure into an empty list, so this operation is total and
returns a plain value. -/
def get_parameter_options (cfg : Config) (token : Option String)
    (source parameter : String) (fo : HttpOutcome) : JVal × Nat :=
  if optTruthyStr token then
    match sourceTable cfg source with
    | none =>
      (JVal.obj [("error", JVal.str ("Unknown source \x27" ++ source ++
        "\x27. Use \x27place\x27 or \x27contact\x27."))], 0)
    | some tbl =>
      if optTruthyStr tbl then
        let fr := fetch_field_options cfg (token.getD "") (tbl.getD "") parameter fo
        (JVal.obj [("source", JVal.str source), ("parameter", JVal.str parameter),
          ("options", JVal.arr fr.1),
          ("count", JVal.num (Int.ofNat fr.1.length))], fr.2)
      else
        (JVal.obj [("error", JVal.str ("Table for \x27" ++ source ++
          "\x27 is not configured."))], 0)
  else (authHeaderErr, 0)

/-- `delete_entry` (src/airtable.py lines 642-684). -/
def delete_entry (cfg : Config) (token : Option String) (source entry_id : String)
    (o : HttpOutcome) : Except PyErr JVal × Nat :=
  if optTruthyStr token then
    match sourceTable cfg source with
    | none =>
      (.ok (JVal.obj [("error", JVal.str ("Unknown source \x27" ++ source ++
        "\x27. Use \x27place\x27 or \x27contact\x27."))]), 0)
    | some tbl =>
      if optTruthyStr tbl then
        let res := airtable_request cfg (token.getD "") (tbl.getD "")
          "DELETE" ("/" ++ entry_id) [] none o
        (match pyContains res.1 "error" with
         | .error e => .error e
         | .ok true =>
           match pyIndex res.1 "error" with
           | .error e => .error e
           | .ok ev => .ok (JVal.obj [("error", ev)])
         | .ok false => do
           let did ← pyGet res.1 "id" (JVal.str entry_id)
           pure (JVal.obj [("message",
             JVal.str (pyCapitalize source ++ " deleted successfully.")),
             ("deleted_id", did)]), res.2)
      else
        (.ok (JVal.obj [("error", JVal.str ("Table for \x27" ++ source ++
          "\x27 is not configured."))]), 0)
  else (.ok authHeaderErr, 0)

/-! ## Auxiliary definitions for the statements -/

/-- Characters before the next single quote. -/
def takeUntilQuote : List Char → List Char
  | [] => []
  | c :: rest => if c = '\x27' then [] else c :: takeUntilQuote rest

/-- Characters after the first single quote, `none` when there is none. -/
def afterFirstQuote : List Char → Option (List Char)
  | [] => none
  | c :: rest => if c = '\x27' then some rest else afterFirstQuote rest

/-- Content of the first single-quoted string literal of a formula, as the
backing store's formula parser would delimit it. -/
def firstQuotedLiteral (s : String) : Option String :=
  (afterFirstQuote s.data).map fun rest => String.mk (takeUntilQuote rest)

/-- Modelled from the spec claim C2: the clause list of `get_contacts` in
the order in which the filter parameters are declared in its signature
(name, nickname, city, sex, relationship, company) — to be compared with
`get_contacts_filters`, which follows the source's append order. -/
def get_contacts_filters_declared_order (name nickname city sex : Option String)
    (relationship : Option (List String)) (company : Option String) : List String :=
  contactsNameClauses name ++ contactsNicknameClauses nickname ++
  contactsCityClauses city ++ contactsSexClauses sex ++
  contactsRelationshipClauses relationship ++ contactsCompanyClauses company

/-- Whether the single HTTP call failed to produce a parsed success body:
a transport exception, a non-ok status, or a success body that is not valid
JSON. -/
def outcomeFails : HttpOutcome → Bool
  | .exn _ => true
  | .resp ok _ jsonBody _ => !ok || jsonBody.isNone

/-- The value is a dict carrying an `error` message string. -/
def hasErrorString (j : JVal) : Prop :=
  ∃ kvs s, j = JVal.obj kvs ∧ jLookup kvs "error" = some (JVal.str s)

/-- A fully-populated configuration used by the concrete witnesses. -/
def cfgEx : Config :=
  ⟨some "appBase", some "tblMsg", some "tblLog", some "tblPlace", some "tblContact"⟩

/-! ## Claims -/

/-- C2 (amended): for two or more supplied filters the composed expression
is `AND(clause1, clause2, ...)` over the clauses in the order the code
appends them; that order is the parameter declaration order for `get_places`
(name, type, rating, address) and `get_location_log` (place_id, status), but
for `get_contacts` the company clause precedes the relationship clause
(otherwise declaration order: name, nickname, city, sex). -/
theorem composed_filter_and_order :
    (∀ f1 f2 rest, composeFilter (f1 :: f2 :: rest) =
        some ("AND(" ++ String.intercalate ", " (f1 :: f2 :: rest) ++ ")")) ∧
    (∀ n t r a, get_places_filters n t r a =
        placesNameClauses n ++ placesTypeClauses t ++
        placesRatingClauses r ++ placesAddressClauses a) ∧
    (∀ p s, get_location_log_filters p s = logPlaceClauses p ++ logStatusClauses s) ∧
    (∀ n nn c sx rel co, get_contacts_filters n nn c sx rel co =
        contactsNameClauses n ++ contactsNicknameClauses nn ++
        contactsCityClauses c ++ contactsSexClauses sx ++
        contactsCompanyClauses co ++ contactsRelationshipClauses rel) :=
  ⟨fun _ _ _ => rfl, fun _ _ _ _ => rfl, fun _ _ => rfl, fun _ _ _ _ _ _ => rfl⟩

/-- C2 (counterexample): `get_contacts(relationship=["friend"],
company="Google")` composes the company clause before the relationship
clause, so the result differs from the AND of the clauses in parameter
declaration order. -/
theorem get_contacts_order_counterexample :
    composeFilter (get_contacts_filters none none none none
        (some ["friend"]) (some "Google")) =
      some ("AND(FIND(LOWER(\x27Google\x27), LOWER(\x7bcompany\x7d)), " ++
        "FIND(\x27friend\x27, ARRAYJOIN(\x7brelationship\x7d, \x27,\x27)))") ∧
    composeFilter (get_contacts_filters none none none none
        (some ["friend"]) (some "Google")) ≠
      composeFilter (get_contacts_filters_declared_order none none none none
        (some ["friend"]) (some "Google")) :=
  ⟨rfl, by decide⟩

/-- C3: the filter composer interpolates values verbatim, so a value
containing a single quote is NOT kept as one string literal: for
`get_places(name="a'b")` the emitted clause is `FIND(LOWER('a'b'),
LOWER({name}))`, whose first quoted literal is `a`, not the whole value.
The claim (escape or reject) is the spec's stated intent; the code performs
no escaping — a code bug flagged by the spec's own design notes. -/
theorem quote_in_value_breaks_literal :
    get_places_filters (some "a\x27b") none none none =
      ["FIND(LOWER(\x27a\x27b\x27), LOWER(\x7bname\x7d))"] ∧
    firstQuotedLiteral "FIND(LOWER(\x27a\x27b\x27), LOWER(\x7bname\x7d))" = some "a" ∧
    ("a" : String) ≠ "a\x27b" :=
  ⟨rfl, rfl, by decide⟩

/-- C7: with zero optional filters supplied the composed expression is empty
and the `filterByFormula` query parameter is absent from the dispatched
request of each read operation. -/
theorem zero_filters_no_formula :
    composeFilter (get_places_filters none none none none) = none ∧
    get_places_params none none none none = [] ∧
    composeFilter (get_contacts_filters none none none none none none) = none ∧
    get_contacts_params none none none none none none = [] ∧
    composeFilter (get_location_log_filters none none) = none ∧
    (get_location_log_params none none none).map Prod.fst =
      ["sort[0][field]", "sort[0][direction]"] :=
  ⟨rfl, rfl, rfl, rfl, rfl, rfl⟩

/-- C8: the type filter over `["cafe", "coworking"]` is the OR of the two
case-insensitive equality clauses. -/
theorem type_pair_or_clause :
    get_places_filters none (some ["cafe", "coworking"]) none none =
      ["OR(LOWER(\x7btype\x7d) = LOWER(\x27cafe\x27), " ++
        "LOWER(\x7btype\x7d) = LOWER(\x27coworking\x27))"] := rfl

/-- C9: zero-valued numeric parameters are treated as absent: `limit = 0`
yields the same query parameters as an omitted limit (so no `maxRecords`
key), and `rating = 0` adds no rating clause. -/
theorem zero_numeric_treated_absent :
    (∀ p s, get_location_log_params (some 0) p s = get_location_log_params none p s) ∧
    (∀ p s, ((get_location_log_params (some 0) p s).map Prod.fst).contains "maxRecords"
        = false) ∧
    (∀ n t a, get_places_filters n t (some 0) a = get_places_filters n t none a) := by
  refine ⟨fun p s => rfl, fun p s => ?_, fun n t a => rfl⟩
  rcases hcf : composeFilter (get_location_log_filters p s) with _ | f <;>
    simp [get_location_log_params, filterParam, hcf, List.contains]

/-- C4: an update operation called with every optional field parameter
omitted builds an empty field map, fails fast with the no-fields-provided
error (for `update_contact` exactly `{"error": "No fields provided to
update."}`) and performs zero HTTP requests. -/
theorem update_no_fields_fast_fail :
    (∀ cfg token cid o f1 f2, optTruthyStr token = true →
      optTruthyStr cfg.contacts_table = true →
      update_contact cfg token cid none none none none none none none none none
          none none o f1 f2 =
        (.ok (JVal.obj [("error", JVal.str "No fields provided to update.")]), 0)) ∧
    (∀ cfg token pid o fo, optTruthyStr token = true →
      optTruthyStr cfg.places_table = true →
      update_place cfg token pid none none none none none o fo =
        (.ok (JVal.obj [("error", JVal.str "No fields provided to update.")]), 0)) ∧
    (∀ cfg token lid o, optTruthyStr token = true →
      optTruthyStr cfg.location_logs_table = true →
      update_location_log cfg token lid none none o =
        (.ok (JVal.obj [("error",
          JVal.str "No fields provided to update. Provide at least place_id or transit.")]),
         0)) := by
  refine ⟨fun cfg token cid o f1 f2 ht htab => ?_,
          fun cfg token pid o fo ht htab => ?_,
          fun cfg token lid o ht htab => ?_⟩ <;>
    simp [update_contact, update_place, update_location_log, ht, htab,
      update_contact_fields, update_place_fields, update_location_log_fields]

/-- Witness for C4 at a concrete configuration and token. -/
theorem update_no_fields_fast_fail_witness :
    optTruthyStr (some "tok") = true ∧
    update_contact cfgEx (some "tok") "rec123" none none none none none none none
        none none none none (.exn "x") (.exn "x") (.exn "x") =
      (.ok (JVal.obj [("error", JVal.str "No fields provided to update.")]), 0) :=
  ⟨by decide,
   update_no_fields_fast_fail.1 cfgEx (some "tok") "rec123" (.exn "x") (.exn "x")
     (.exn "x") (by decide) (by decide)⟩

/-- C5: a dispatcher call with a non-empty credential but a missing base
identifier or a missing table identifier returns the configuration error
dict immediately and performs no HTTP request. -/
theorem dispatcher_config_error (cfg : Config) (token table m e : String)
    (p : List (String × String)) (jd : Option JVal) (o : HttpOutcome)
    (htok : (token == "") = false)
    (hcfg : (!optTruthyStr cfg.base_id || (table == "")) = true) :
    airtable_request cfg token table m e p jd o =
      (JVal.obj [("error", JVal.str "Server configuration is incomplete.")], 0) := by
  simp [airtable_request, htok, hcfg]

/-- Witness for C5: missing base identifier, concrete call. -/
theorem dispatcher_config_error_witness :
    (("tok" == "") = false) ∧
    airtable_request ⟨none, some "m", some "l", some "p", some "c"⟩ "tok" "tbl"
        "GET" "" [] none (.exn "x") =
      (JVal.obj [("error", JVal.str "Server configuration is incomplete.")], 0) :=
  ⟨by decide,
   dispatcher_config_error ⟨none, some "m", some "l", some "p", some "c"⟩ "tok"
     "tbl" "GET" "" [] none (.exn "x") (by decide) (by decide)⟩

/-- C6: a dispatcher call whose HTTP response has a non-success status
returns (rather than raises) a request-error dict carrying the numeric
status code and, as detail, the body parsed as JSON or the raw text when
JSON parsing fails. -/
theorem dispatcher_request_error (cfg : Config) (token table m e : String)
    (p : List (String × String)) (jd : Option JVal) (status : Nat)
    (jsonBody : Option JVal) (text : String)
    (htok : (token == "") = false)
    (hcfg : (!optTruthyStr cfg.base_id || (table == "")) = false) :
    airtable_request cfg token table m e p jd (.resp false status jsonBody text) =
      (JVal.obj [("error", JVal.str ("Request failed with status " ++ toString status)),
        ("detail", jsonBody.getD (JVal.str text))], 1) := by
  simp [airtable_request, htok, hcfg]

/-- Witness for C6: a 404 with a non-JSON body falls back to the raw text. -/
theorem dispatcher_request_error_witness :
    (("tok" == "") = false) ∧
    airtable_request cfgEx "tok" "tbl" "GET" "" [] none
        (.resp false 404 none "NOT FOUND") =
      (JVal.obj [("error", JVal.str "Request failed with status 404"),
        ("detail", JVal.str "NOT FOUND")], 1) :=
  ⟨by decide,
   dispatcher_request_error cfgEx "tok" "tbl" "GET" "" [] none 404 none "NOT FOUND"
     (by decide) (by decide)⟩

/-- `messagesShape` on a dict whose first key is `error` produces the
uniform error result carrying the message and the original range. -/
theorem messagesShape_err (s : String) (rest : List (String × JVal)) (range : String) :
    messagesShape (JVal.obj (("error", JVal.str s) :: rest)) range =
      .ok (JVal.obj [("error", JVal.str s), ("range", JVal.str range)]) := rfl

/-- C1 (counterexample): a success response whose parsed JSON body is not an
object — here the JSON array `[]` — is returned as-is by the dispatcher, and
`get_messages` then faults on `data.get("records", [])`: an AttributeError
escapes to the caller instead of an error dict. -/
theorem get_messages_nonobject_fault :
    get_messages cfgEx (some "tok") "all" (.resp true 200 (some (JVal.arr [])) "") =
      (.error PyErr.attributeError, 1) := rfl

/-- The operation returned (did not raise) a dict carrying an `error`
message string.  The second component of the pair — the HTTP request
count — is unconstrained here. -/
abbrev returnsErrorDict (res : Except PyErr JVal × Nat) : Prop :=
  ∃ j, res.1 = .ok j ∧ hasErrorString j

/-- On every failing outcome (and on every guard failure) the dispatcher's
result is a dict whose first entry is an `error` message string. -/
theorem airtable_request_fail (cfg : Config) (token table m e : String)
    (p : List (String × String)) (jd : Option JVal) (o : HttpOutcome)
    (ho : outcomeFails o = true) :
    ∃ s rest, (airtable_request cfg token table m e p jd o).1 =
      JVal.obj (("error", JVal.str s) :: rest) := by
  cases h1 : token == "" with
  | true =>
    exact ⟨"No authentication token provided.", [], by simp [airtable_request, h1]⟩
  | false =>
    cases h2 : !optTruthyStr cfg.base_id || (table == "") with
    | true =>
      exact ⟨"Server configuration is incomplete.", [],
        by simp [airtable_request, h1, h2]⟩
    | false =>
      cases o with
      | exn msg =>
        exact ⟨"Request failed: " ++ msg, [], by simp [airtable_request, h1, h2]⟩
      | resp ok status jb text =>
        cases ok with
        | false =>
          exact ⟨"Request failed with status " ++ toString status,
            [("detail", jb.getD (JVal.str text))],
            by simp [airtable_request, h1, h2]⟩
        | true =>
          cases jb with
          | some j => simp [outcomeFails] at ho
          | none =>
            exact ⟨"Request failed: response body is not valid JSON", [],
              by simp [airtable_request, h1, h2]⟩

/-- On every failing outcome the schema-discovery call yields an empty
options list (its failures are swallowed, never converted or raised). -/
theorem fetch_field_options_fail (cfg : Config) (tok tbl param : String)
    (o : HttpOutcome) (ho : outcomeFails o = true) :
    (fetch_field_options cfg tok tbl param o).1 = [] := by
  cases hg : tok == "" || !optTruthyStr cfg.base_id || (tbl == "") with
  | true => simp [fetch_field_options, hg]
  | false =>
    cases o with
    | exn msg => simp [fetch_field_options, hg]
    | resp ok status jb text =>
      cases ok with
      | false => simp [fetch_field_options, hg]
      | true =>
        cases jb with
        | some j => simp [outcomeFails] at ho
        | none => simp [fetch_field_options, hg]

/-- C1 (amended): for every tool operation, every error arising on its
dispatcher path — missing credential, missing or unknown configuration,
transport failure, non-success HTTP status, or a success body that is not
valid JSON — is caught at the operation boundary and converted into a
returned result dictionary carrying an `error` message string
(`get_messages` additionally carries the original filter range on its
dispatcher path); `get_parameter_options` performs only the schema-discovery
call, whose failures are swallowed into an empty options list rather than
converted.  Success responses are NOT covered: a success body that is not of
the shape the operation expects — a non-object body, or an object with an
unexpectedly-typed field such as a numeric `records` — can make an unhandled
fault escape, as `get_messages_nonobject_fault` shows. -/
theorem tool_errors_converted :
    (∀ cfg token table m e p jd o, outcomeFails o = true →
      hasErrorString (airtable_request cfg token table m e p jd o).1) ∧
    (∀ cfg token range o, outcomeFails o = true →
      returnsErrorDict (get_messages cfg token range o)) ∧
    (∀ cfg t mt range o, outcomeFails o = true → (t == "") = false →
      cfg.messages_table = some mt → (mt == "") = false →
      ∃ s, (get_messages cfg (some t) range o).1 =
        .ok (JVal.obj [("error", JVal.str s), ("range", JVal.str range)])) ∧
    (∀ cfg token limit place_id status o, outcomeFails o = true →
      returnsErrorDict (get_location_log cfg token limit place_id status o)) ∧
    (∀ cfg token log_id place_id transit o, outcomeFails o = true →
      returnsErrorDict (update_location_log cfg token log_id place_id transit o)) ∧
    (∀ cfg token name address type_ rating notes o fo, outcomeFails o = true →
      returnsErrorDict (create_place cfg token name address type_ rating notes o fo)) ∧
    (∀ cfg token place_id name address type_ rating notes o fo, outcomeFails o = true →
      returnsErrorDict
        (update_place cfg token place_id name address type_ rating notes o fo)) ∧
    (∀ cfg token name type_ rating address o fo, outcomeFails o = true →
      returnsErrorDict (get_places cfg token name type_ rating address o fo)) ∧
    (∀ cfg token name nickname city sex relationship company o fo1 fo2,
      outcomeFails o = true →
      returnsErrorDict
        (get_contacts cfg token name nickname city sex relationship company o fo1 fo2)) ∧
    (∀ cfg token name nickname birthday city sex relationship phone email company
        notes met_date o fo1 fo2, outcomeFails o = true →
      returnsErrorDict (create_contact cfg token name nickname birthday city sex
        relationship phone email company notes met_date o fo1 fo2)) ∧
    (∀ cfg token contact_id name nickname birthday city sex relationship phone email
        company notes met_date o fo1 fo2, outcomeFails o = true →
      returnsErrorDict (update_contact cfg token contact_id name nickname birthday city
        sex relationship phone email company notes met_date o fo1 fo2)) ∧
    (∀ cfg token source entry_id o, outcomeFails o = true →
      returnsErrorDict (delete_entry cfg token source entry_id o)) ∧
    (∀ cfg token o, outcomeFails o = true →
      returnsErrorDict (get_birthdays cfg token o)) ∧
    (∀ cfg token source parameter fo tbl, outcomeFails fo = true →
      optTruthyStr token = true → sourceTable cfg source = some tbl →
      optTruthyStr tbl = true →
      (get_parameter_options cfg token source parameter fo).1 =
        JVal.obj [("source", JVal.str source), ("parameter", JVal.str parameter),
          ("options", JVal.arr []), ("count", JVal.num 0)]) := by
  refine ⟨?_, ?_, ?_, ?_, ?_, ?_, ?_, ?_, ?_, ?_, ?_, ?_, ?_, ?_⟩
  · intro cfg token table m e p jd o ho
    obtain ⟨s, rest, hD⟩ := airtable_request_fail cfg token table m e p jd o ho
    exact ⟨_, s, hD, rfl⟩
  · intro cfg token range o ho
    rcases token with _ | t
    · exact ⟨_, rfl, _, _, rfl, rfl⟩
    cases hbq : t == "" with
    | true =>
      have ht0 : t = "" := eq_of_beq hbq
      subst ht0
      exact ⟨_, rfl, _, _, rfl, rfl⟩
    | false =>
      have h1 : optTruthyStr (some t) = true := by simp [optTruthyStr, hbq]
      cases hmt : cfg.messages_table with
      | none =>
        simp only [get_messages, h1, if_true, hmt]
        exact ⟨_, rfl, _, _, rfl, rfl⟩
      | some tb =>
        cases htb : tb == "" with
        | true =>
          have ht1 : tb = "" := eq_of_beq htb
          subst ht1
          simp only [get_messages, h1, if_true, hmt]
          exact ⟨_, rfl, _, _, rfl, rfl⟩
        | false =>
          have h2 : optTruthyStr (some tb) = true := by simp [optTruthyStr, htb]
          simp only [get_messages, h1, h2, if_true, hmt, Option.getD_some]
          obtain ⟨s, rest, hD⟩ := airtable_request_fail cfg t tb _ _ _ _ o ho
          rw [hD]
          exact ⟨_, rfl, _, _, rfl, rfl⟩
  · intro cfg t mt range o ho hbq hmt hmq
    have h1 : optTruthyStr (some t) = true := by simp [optTruthyStr, hbq]
    have h2 : optTruthyStr (some mt) = true := by simp [optTruthyStr, hmq]
    simp only [get_messages, h1, h2, if_true, hmt, Option.getD_some]
    obtain ⟨s, rest, hD⟩ := airtable_request_fail cfg t mt _ _ _ _ o ho
    rw [hD]
    exact ⟨s, messagesShape_err s rest range⟩
  · intro cfg token limit place_id status o ho
    rcases token with _ | t
    · exact ⟨_, rfl, _, _, rfl, rfl⟩
    cases hbq : t == "" with
    | true =>
      have ht0 : t = "" := eq_of_beq hbq
      subst ht0
      exact ⟨_, rfl, _, _, rfl, rfl⟩
    | false =>
      have h1 : optTruthyStr (some t) = true := by simp [optTruthyStr, hbq]
      cases hmt : cfg.location_logs_table with
      | none =>
        simp only [get_location_log, h1, if_true, hmt]
        exact ⟨_, rfl, _, _, rfl, rfl⟩
      | some tb =>
        cases htb : tb == "" with
        | true =>
          have ht1 : tb = "" := eq_of_beq htb
          subst ht1
          simp only [get_location_log, h1, if_true, hmt]
          exact ⟨_, rfl, _, _, rfl, rfl⟩
        | false =>
          have h2 : optTruthyStr (some tb) = true := by simp [optTruthyStr, htb]
          simp only [get_location_log, h1, h2, if_true, hmt, Option.getD_some]
          obtain ⟨s, rest, hD⟩ := airtable_request_fail cfg t tb _ _ _ _ o ho
          rw [hD]
          exact ⟨_, rfl, _, _, rfl, rfl⟩
  · intro cfg token log_id place_id transit o ho
    rcases token with _ | t
    · exact ⟨_, rfl, _, _, rfl, rfl⟩
    cases hbq : t == "" with
    | true =>
      have ht0 : t = "" := eq_of_beq hbq
      subst ht0
      exact ⟨_, rfl, _, _, rfl, rfl⟩
    | false =>
      have h1 : optTruthyStr (some t) = true := by simp [optTruthyStr, hbq]
      cases hmt : cfg.location_logs_table with
      | none =>
        simp only [update_location_log, h1, if_true, hmt]
        exact ⟨_, rfl, _, _, rfl, rfl⟩
      | some tb =>
        cases htb : tb == "" with
        | true =>
          have ht1 : tb = "" := eq_of_beq htb
          subst ht1
          simp only [update_location_log, h1, if_true, hmt]
          exact ⟨_, rfl, _, _, rfl, rfl⟩
        | false =>
          have h2 : optTruthyStr (some tb) = true := by simp [optTruthyStr, htb]
          simp only [update_location_log, h1, h2, if_true, hmt, Option.getD_some]
          cases hf : (update_location_log_fields place_id transit).isEmpty with
          | true =>
            simp only [hf, if_true]
            exact ⟨_, rfl, _, _, rfl, rfl⟩
          | false =>
            simp only [hf, Bool.false_eq_true, if_false]
            obtain ⟨s, rest, hD⟩ := airtable_request_fail cfg t tb _ _ _ _ o ho
            rw [hD]
            exact ⟨_, rfl, _, _, rfl, rfl⟩
  · intro cfg token name address type_ rating notes o fo ho
    rcases token with _ | t
    · exact ⟨_, rfl, _, _, rfl, rfl⟩
    cases hbq : t == "" with
    | true =>
      have ht0 : t = "" := eq_of_beq hbq
      subst ht0
      exact ⟨_, rfl, _, _, rfl, rfl⟩
    | false =>
      have h1 : optTruthyStr (some t) = true := by simp [optTruthyStr, hbq]
      cases hmt : cfg.places_table with
      | none =>
        simp only [create_place, h1, if_true, hmt]
        exact ⟨_, rfl, _, _, rfl, rfl⟩
      | some tb =>
        cases htb : tb == "" with
        | true =>
          have ht1 : tb = "" := eq_of_beq htb
          subst ht1
          simp only [create_place, h1, if_true, hmt]
          exact ⟨_, rfl, _, _, rfl, rfl⟩
        | false =>
          have h2 : optTruthyStr (some tb) = true := by simp [optTruthyStr, htb]
          simp only [create_place, h1, h2, if_true, hmt, Option.getD_some]
          obtain ⟨s, rest, hD⟩ := airtable_request_fail cfg t tb _ _ _ _ o ho
          rw [hD]
          exact ⟨_, rfl, _, _, rfl, rfl⟩
  · intro cfg token place_id name address type_ rating notes o fo ho
    rcases token with _ | t
    · exact ⟨_, rfl, _, _, rfl, rfl⟩
    cases hbq : t == "" with
    | true =>
      have ht0 : t = "" := eq_of_beq hbq
      subst ht0
      exact ⟨_, rfl, _, _, rfl, rfl⟩
    | false =>
      have h1 : optTruthyStr (some t) = true := by simp [optTruthyStr, hbq]
      cases hmt : cfg.places_table with
      | none =>
        simp only [update_place, h1, if_true, hmt]
        exact ⟨_, rfl, _, _, rfl, rfl⟩
      | some tb =>
        cases htb : tb == "" with
        | true =>
          have ht1 : tb = "" := eq_of_beq htb
          subst ht1
          simp only [update_place, h1, if_true, hmt]
          exact ⟨_, rfl, _, _, rfl, rfl⟩
        | false =>
          have h2 : optTruthyStr (some tb) = true := by simp [optTruthyStr, htb]
          simp only [update_place, h1, h2, if_true, hmt, Option.getD_some]
          cases hf : (update_place_fields name address type_ rating notes).isEmpty with
          | true =>
            simp only [hf, if_true]
            exact ⟨_, rfl, _, _, rfl, rfl⟩
          | false =>
            simp only [hf, Bool.false_eq_true, if_false]
            obtain ⟨s, rest, hD⟩ := airtable_request_fail cfg t tb _ _ _ _ o ho
            rw [hD]
            exact ⟨_, rfl, _, _, rfl, rfl⟩
  · intro cfg token name type_ rating address o fo ho
    rcases token with _ | t
    · exact ⟨_, rfl, _, _, rfl, rfl⟩
    cases hbq : t == "" with
    | true =>
      have ht0 : t = "" := eq_of_beq hbq
      subst ht0
      exact ⟨_, rfl, _, _, rfl, rfl⟩
    | false =>
      have h1 : optTruthyStr (some t) = true := by simp [optTruthyStr, hbq]
      cases hmt : cfg.places_table with
      | none =>
        simp only [get_places, h1, if_true, hmt]
        exact ⟨_, rfl, _, _, rfl, rfl⟩
      | some tb =>
        cases htb : tb == "" with
        | true =>
          have ht1 : tb = "" := eq_of_beq htb
          subst ht1
          simp only [get_places, h1, if_true, hmt]
          exact ⟨_, rfl, _, _, rfl, rfl⟩
        | false =>
          have h2 : optTruthyStr (some tb) = true := by simp [optTruthyStr, htb]
          simp only [get_places, h1, h2, if_true, hmt, Option.getD_some]
          obtain ⟨s, rest, hD⟩ := airtable_request_fail cfg t tb _ _ _ _ o ho
          rw [hD]
          exact ⟨_, rfl, _, _, rfl, rfl⟩
  · intro cfg token name nickname city sex relationship company o fo1 fo2 ho
    rcases token with _ | t
    · exact ⟨_, rfl, _, _, rfl, rfl⟩
    cases hbq : t == "" with
    | true =>
      have ht0 : t = "" := eq_of_beq hbq
      subst ht0
      exact ⟨_, rfl, _, _, rfl, rfl⟩
    | false =>
      have h1 : optTruthyStr (some t) = true := by simp [optTruthyStr, hbq]
      cases hmt : cfg.contacts_table with
      | none =>
        simp only [get_contacts, h1, if_true, hmt]
        exact ⟨_, rfl, _, _, rfl, rfl⟩
      | some tb =>
        cases htb : tb == "" with
        | true =>
          have ht1 : tb = "" := eq_of_beq htb
          subst ht1
          simp only [get_contacts, h1, if_true, hmt]
          exact ⟨_, rfl, _, _, rfl, rfl⟩
        | false =>
          have h2 : optTruthyStr (some tb) = true := by simp [optTruthyStr, htb]
          simp only [get_contacts, h1, h2, if_true, hmt, Option.getD_some]
          obtain ⟨s, rest, hD⟩ := airtable_request_fail cfg t tb _ _ _ _ o ho
          rw [hD]
          exact ⟨_, rfl, _, _, rfl, rfl⟩
  · intro cfg token name nickname birthday city sex relationship phone email company
      notes met_date o fo1 fo2 ho
    rcases token with _ | t
    · exact ⟨_, rfl, _, _, rfl, rfl⟩
    cases hbq : t == "" with
    | true =>
      have ht0 : t = "" := eq_of_beq hbq
      subst ht0
      exact ⟨_, rfl, _, _, rfl, rfl⟩
    | false =>
      have h1 : optTruthyStr (some t) = true := by simp [optTruthyStr, hbq]
      cases hmt : cfg.contacts_table with
      | none =>
        simp only [create_contact, h1, if_true, hmt]
        exact ⟨_, rfl, _, _, rfl, rfl⟩
      | some tb =>
        cases htb : tb == "" with
        | true =>
          have ht1 : tb = "" := eq_of_beq htb
          subst ht1
          simp only [create_contact, h1, if_true, hmt]
          exact ⟨_, rfl, _, _, rfl, rfl⟩
        | false =>
          have h2 : optTruthyStr (some tb) = true := by simp [optTruthyStr, htb]
          simp only [create_contact, h1, h2, if_true, hmt, Option.getD_some]
          obtain ⟨s, rest, hD⟩ := airtable_request_fail cfg t tb _ _ _ _ o ho
          rw [hD]
          exact ⟨_, rfl, _, _, rfl, rfl⟩
  · intro cfg token contact_id name nickname birthday city sex relationship phone
      email company notes met_date o fo1 fo2 ho
    rcases token with _ | t
    · exact ⟨_, rfl, _, _, rfl, rfl⟩
    cases hbq : t == "" with
    | true =>
      have ht0 : t = "" := eq_of_beq hbq
      subst ht0
      exact ⟨_, rfl, _, _, rfl, rfl⟩
    | false =>
      have h1 : optTruthyStr (some t) = true := by simp [optTruthyStr, hbq]
      cases hmt : cfg.contacts_table with
      | none =>
        simp only [update_contact, h1, if_true, hmt]
        exact ⟨_, rfl, _, _, rfl, rfl⟩
      | some tb =>
        cases htb : tb == "" with
        | true =>
          have ht1 : tb = "" := eq_of_beq htb
          subst ht1
          simp only [update_contact, h1, if_true, hmt]
          exact ⟨_, rfl, _, _, rfl, rfl⟩
        | false =>
          have h2 : optTruthyStr (some tb) = true := by simp [optTruthyStr, htb]
          simp only [update_contact, h1, h2, if_true, hmt, Option.getD_some]
          cases hf : (update_contact_fields name nickname birthday city sex relationship
              phone email company notes met_date).isEmpty with
          | true =>
            simp only [hf, if_true]
            exact ⟨_, rfl, _, _, rfl, rfl⟩
          | false =>
            simp only [hf, Bool.false_eq_true, if_false]
            obtain ⟨s, rest, hD⟩ := airtable_request_fail cfg t tb _ _ _ _ o ho
            rw [hD]
            exact ⟨_, rfl, _, _, rfl, rfl⟩
  · intro cfg token source entry_id o ho
    rcases token with _ | t
    · exact ⟨_, rfl, _, _, rfl, rfl⟩
    cases hbq : t == "" with
    | true =>
      have ht0 : t = "" := eq_of_beq hbq
      subst ht0
      exact ⟨_, rfl, _, _, rfl, rfl⟩
    | false =>
      have h1 : optTruthyStr (some t) = true := by simp [optTruthyStr, hbq]
      cases hsrc : sourceTable cfg source with
      | none =>
        simp only [delete_entry, h1, if_true, hsrc]
        exact ⟨_, rfl, _, _, rfl, rfl⟩
      | some tbl =>
        rcases tbl with _ | tb
        · simp only [delete_entry, h1, if_true, hsrc]
          exact ⟨_, rfl, _, _, rfl, rfl⟩
        · cases htb : tb == "" with
          | true =>
            have ht1 : tb = "" := eq_of_beq htb
            subst ht1
            simp only [delete_entry, h1, if_true, hsrc]
            exact ⟨_, rfl, _, _, rfl, rfl⟩
          | false =>
            have h2 : optTruthyStr (some tb) = true := by simp [optTruthyStr, htb]
            simp only [delete_entry, h1, h2, if_true, hsrc, Option.getD_some]
            obtain ⟨s, rest, hD⟩ := airtable_request_fail cfg t tb _ _ _ _ o ho
            rw [hD]
            exact ⟨_, rfl, _, _, rfl, rfl⟩
  · intro cfg token o ho
    rcases token with _ | t
    · exact ⟨_, rfl, _, _, rfl, rfl⟩
    cases hbq : t == "" with
    | true =>
      have ht0 : t = "" := eq_of_beq hbq
      subst ht0
      exact ⟨_, rfl, _, _, rfl, rfl⟩
    | false =>
      have h1 : optTruthyStr (some t) = true := by simp [optTruthyStr, hbq]
      cases hmt : cfg.contacts_table with
      | none =>
        simp only [get_birthdays, h1, if_true, hmt]
        exact ⟨_, rfl, _, _, rfl, rfl⟩
      | some tb =>
        cases htb : tb == "" with
        | true =>
          have ht1 : tb = "" := eq_of_beq htb
          subst ht1
          simp only [get_birthdays, h1, if_true, hmt]
          exact ⟨_, rfl, _, _, rfl, rfl⟩
        | false =>
          have h2 : optTruthyStr (some tb) = true := by simp [optTruthyStr, htb]
          simp only [get_birthdays, h1, h2, if_true, hmt, Option.getD_some]
          obtain ⟨s, rest, hD⟩ := airtable_request_fail cfg t tb _ _ _ _ o ho
          rw [hD]
          exact ⟨_, rfl, _, _, rfl, rfl⟩
  · intro cfg token source parameter fo tbl ho htok hsrc htbl
    simp only [get_parameter_options, htok, if_true, hsrc, htbl]
    have hf : (fetch_field_options cfg (token.getD "") (tbl.getD "") parameter fo).1 = [] :=
      fetch_field_options_fail cfg (token.getD "") (tbl.getD "") parameter fo ho
    rw [hf]
    rfl

/-- Witness for C1 (amended): a transport failure is converted by
`get_messages` into a returned error dict. -/
theorem tool_errors_converted_witness :
    outcomeFails (.exn "boom") = true ∧
    returnsErrorDict (get_messages cfgEx (some "tok") "all" (.exn "boom")) :=
  ⟨by decide,
   tool_errors_converted.2.1 cfgEx (some "tok") "all" (.exn "boom") (by decide)⟩

/-- A true `isStrEq` pins the value to the string. -/
theorem isStrEq_eq {j : JVal} {s : String} (h : j.isStrEq s = true) :
    j = JVal.str s := by
  cases j with
  | str t => exact congrArg JVal.str (eq_of_beq h)
  | null => exact Bool.noConfusion h
  | bool b => exact Bool.noConfusion h
  | num n => exact Bool.noConfusion h
  | arr xs => exact Bool.noConfusion h
  | obj kvs => exact Bool.noConfusion h

/-- Everything `groupBirthdaysAux` puts into a bucket was either in that
bucket's accumulator already or comes from the input list with the matching
alert value. -/
theorem groupBirthdaysAux_sub : ∀ (l t w m T W M : List JVal),
    groupBirthdaysAux l t w m = .ok (T, W, M) → ∀ r : JVal,
      (r ∈ T → r ∈ t ∨ (r ∈ l ∧ recordAlert r = .ok (JVal.str "today"))) ∧
      (r ∈ W → r ∈ w ∨ (r ∈ l ∧ recordAlert r = .ok (JVal.str "this_week"))) ∧
      (r ∈ M → r ∈ m ∨ (r ∈ l ∧ recordAlert r = .ok (JVal.str "this_month"))) := by
  intro l
  induction l with
  | nil =>
    intro t w m T W M h r
    simp only [groupBirthdaysAux, Except.ok.injEq, Prod.mk.injEq] at h
    obtain ⟨rfl, rfl, rfl⟩ := h
    exact ⟨fun hr => .inl hr, fun hr => .inl hr, fun hr => .inl hr⟩
  | cons r0 rest ih =>
    intro t w m T W M h r
    simp only [groupBirthdaysAux] at h
    split at h
    next e hr0 => exact Except.noConfusion h
    next alert hr0 =>
      split at h
      next h1 =>
        have halert := isStrEq_eq h1
        subst halert
        obtain ⟨i1, i2, i3⟩ := ih (t ++ [r0]) w m T W M h r
        refine ⟨fun hT => ?_, fun hW => ?_, fun hM => ?_⟩
        · rcases i1 hT with hmem | ⟨hrest, ha⟩
          · rcases List.mem_append.mp hmem with h' | h'
            · exact .inl h'
            · have hrr : r = r0 := by simpa using h'
              subst hrr
              exact .inr ⟨List.mem_cons_self r rest, hr0⟩
          · exact .inr ⟨List.mem_cons_of_mem r0 hrest, ha⟩
        · rcases i2 hW with h' | ⟨hrest, hb⟩
          · exact .inl h'
          · exact .inr ⟨List.mem_cons_of_mem r0 hrest, hb⟩
        · rcases i3 hM with h' | ⟨hrest, hb⟩
          · exact .inl h'
          · exact .inr ⟨List.mem_cons_of_mem r0 hrest, hb⟩
      next h1 =>
        split at h
        next h2 =>
          have halert := isStrEq_eq h2
          subst halert
          obtain ⟨i1, i2, i3⟩ := ih t (w ++ [r0]) m T W M h r
          refine ⟨fun hT => ?_, fun hW => ?_, fun hM => ?_⟩
          · rcases i1 hT with h' | ⟨hrest, hb⟩
            · exact .inl h'
            · exact .inr ⟨List.mem_cons_of_mem r0 hrest, hb⟩
          · rcases i2 hW with hmem | ⟨hrest, ha⟩
            · rcases List.mem_append.mp hmem with h' | h'
              · exact .inl h'
              · have hrr : r = r0 := by simpa using h'
                subst hrr
                exact .inr ⟨List.mem_cons_self r rest, hr0⟩
            · exact .inr ⟨List.mem_cons_of_mem r0 hrest, ha⟩
          · rcases i3 hM with h' | ⟨hrest, hb⟩
            · exact .inl h'
            · exact .inr ⟨List.mem_cons_of_mem r0 hrest, hb⟩
        next h2 =>
          split at h
          next h3 =>
            have halert := isStrEq_eq h3
            subst halert
            obtain ⟨i1, i2, i3⟩ := ih t w (m ++ [r0]) T W M h r
            refine ⟨fun hT => ?_, fun hW => ?_, fun hM => ?_⟩
            · rcases i1 hT with h' | ⟨hrest, hb⟩
              · exact .inl h'
              · exact .inr ⟨List.mem_cons_of_mem r0 hrest, hb⟩
            · rcases i2 hW with h' | ⟨hrest, hb⟩
              · exact .inl h'
              · exact .inr ⟨List.mem_cons_of_mem r0 hrest, hb⟩
            · rcases i3 hM with hmem | ⟨hrest, ha⟩
              · rcases List.mem_append.mp hmem with h' | h'
                · exact .inl h'
                · have hrr : r = r0 := by simpa using h'
                  subst hrr
                  exact .inr ⟨List.mem_cons_self r rest, hr0⟩
              · exact .inr ⟨List.mem_cons_of_mem r0 hrest, ha⟩
          next h3 =>
            obtain ⟨i1, i2, i3⟩ := ih t w m T W M h r
            refine ⟨fun hT => ?_, fun hW => ?_, fun hM => ?_⟩
            · rcases i1 hT with h' | ⟨hrest, hb⟩
              · exact .inl h'
              · exact .inr ⟨List.mem_cons_of_mem r0 hrest, hb⟩
            · rcases i2 hW with h' | ⟨hrest, hb⟩
              · exact .inl h'
              · exact .inr ⟨List.mem_cons_of_mem r0 hrest, hb⟩
            · rcases i3 hM with h' | ⟨hrest, hb⟩
              · exact .inl h'
              · exact .inr ⟨List.mem_cons_of_mem r0 hrest, hb⟩

/-- C10: in every successful `get_birthdays` grouping, a record lands in a
bucket only if it was fetched and its `birthday_alert` field matches that
bucket; no record lands in two buckets; and a record whose alert is none of
`today`, `this_week`, `this_month` appears in no bucket (it is silently
omitted). -/
theorem get_birthdays_partition (records T W M : List JVal)
    (h : groupBirthdays records = .ok (T, W, M)) (r : JVal) :
    (r ∈ T → r ∈ records ∧ recordAlert r = .ok (JVal.str "today")) ∧
    (r ∈ W → r ∈ records ∧ recordAlert r = .ok (JVal.str "this_week")) ∧
    (r ∈ M → r ∈ records ∧ recordAlert r = .ok (JVal.str "this_month")) ∧
    ¬(r ∈ T ∧ r ∈ W) ∧ ¬(r ∈ T ∧ r ∈ M) ∧ ¬(r ∈ W ∧ r ∈ M) ∧
    (recordAlert r ≠ .ok (JVal.str "today") →
      recordAlert r ≠ .ok (JVal.str "this_week") →
      recordAlert r ≠ .ok (JVal.str "this_month") →
      r ∉ T ∧ r ∉ W ∧ r ∉ M) := by
  obtain ⟨i1, i2, i3⟩ := groupBirthdaysAux_sub records [] [] [] T W M h r
  have j1 : r ∈ T → r ∈ records ∧ recordAlert r = .ok (JVal.str "today") := by
    intro hT
    rcases i1 hT with h' | h'
    · exact absurd h' (List.not_mem_nil r)
    · exact h'
  have j2 : r ∈ W → r ∈ records ∧ recordAlert r = .ok (JVal.str "this_week") := by
    intro hW
    rcases i2 hW with h' | h'
    · exact absurd h' (List.not_mem_nil r)
    · exact h'
  have j3 : r ∈ M → r ∈ records ∧ recordAlert r = .ok (JVal.str "this_month") := by
    intro hM
    rcases i3 hM with h' | h'
    · exact absurd h' (List.not_mem_nil r)
    · exact h'
  refine ⟨j1, j2, j3, ?_, ?_, ?_, ?_⟩
  · rintro ⟨hT, hW⟩
    have a2 := (j2 hW).2
    rw [(j1 hT).2] at a2
    exact absurd (JVal.str.inj (Except.ok.inj a2)) (by decide)
  · rintro ⟨hT, hM⟩
    have a2 := (j3 hM).2
    rw [(j1 hT).2] at a2
    exact absurd (JVal.str.inj (Except.ok.inj a2)) (by decide)
  · rintro ⟨hW, hM⟩
    have a2 := (j3 hM).2
    rw [(j2 hW).2] at a2
    exact absurd (JVal.str.inj (Except.ok.inj a2)) (by decide)
  · intro n1 n2 n3
    exact ⟨fun hT => n1 (j1 hT).2, fun hW => n2 (j2 hW).2, fun hM => n3 (j3 hM).2⟩

/-- A fetched record whose alert is `today`. -/
def br1 : JVal :=
  JVal.obj [("id", JVal.str "rec1"), ("fields", JVal.obj [("birthday_alert", JVal.str "today")])]

/-- A fetched record whose alert is `this_week`. -/
def br2 : JVal :=
  JVal.obj [("id", JVal.str "rec2"), ("fields", JVal.obj [("birthday_alert", JVal.str "this_week")])]

/-- A fetched record whose alert is the unknown value `next_year`. -/
def br3 : JVal :=
  JVal.obj [("id", JVal.str "rec3"), ("fields", JVal.obj [("birthday_alert", JVal.str "next_year")])]

/-- Witness for C10: on three concrete records the grouping succeeds, and
the record with the unknown alert `next_year` is omitted from every
bucket. -/
theorem get_birthdays_partition_witness :
    groupBirthdays [br1, br2, br3] = .ok ([br1], [br2], []) ∧
    (br3 ∉ ([br1] : List JVal) ∧ br3 ∉ ([br2] : List JVal) ∧ br3 ∉ ([] : List JVal)) :=
  ⟨rfl,
   (get_birthdays_partition [br1, br2, br3] [br1] [br2] [] rfl br3).2.2.2.2.2.2
     (fun hc => absurd (JVal.str.inj (Except.ok.inj hc)) (by decide))
     (fun hc => absurd (JVal.str.inj (Except.ok.inj hc)) (by decide))
     (fun hc => absurd (JVal.str.inj (Except.ok.inj hc)) (by decide))⟩

end Poke
